import Mathlib

/-
Verification development for the copy-trading signal-to-order pipeline.

Shallow embedding of the core components of the execution pipeline:
the token-bucket rate limiter, the poller dedup filter, the signal
validator, the pricing step, the order sizer (BUY and SELL branches),
the top-level execution entry point, and the order lifecycle loop.
Numeric values are modelled as rational numbers; calls to outside
services (balance snapshots, order placement, status polls) are
modelled as explicit inputs.
-/

namespace CopyTrading

/-- Mutable state of the token-bucket rate limiter (rate_limiter.py,
class RateLimiter): refill rate in tokens per second, bucket capacity,
current token count, and the timestamp of the last refill. -/
structure RateLimiterState where
  rate : ℚ
  capacity : ℚ
  tokens : ℚ
  lastRefill : ℚ
deriving Repr, DecidableEq

/-- Lazy refill performed at the top of RateLimiter.acquire
(rate_limiter.py lines 42 to 48): add elapsed times rate tokens,
clipped at capacity, and only when the increment is positive. -/
def refill (s : RateLimiterState) (now : ℚ) : RateLimiterState :=
  let elapsed := now - s.lastRefill
  let newTokens := elapsed * s.rate
  if 0 < newTokens then
    { s with tokens := min s.capacity (s.tokens + newTokens), lastRefill := now }
  else s

/-- One call to RateLimiter.acquire (rate_limiter.py lines 34 to 76).
After the initial refill at time now, either the bucket holds enough
tokens and they are deducted at once, or the caller sleeps for
(n - tokens) / rate seconds, refills again at the wake-up time
nowAfterWait, and then deducts.  The wake-up time is an input because
the sleep may overshoot; its lower bound is a hypothesis of the
theorems below. -/
def acquire (s : RateLimiterState) (n : ℚ) (now nowAfterWait : ℚ) : RateLimiterState :=
  let s1 := refill s now
  if n ≤ s1.tokens then
    { s1 with tokens := s1.tokens - n }
  else
    let elapsedAfterWait := nowAfterWait - s1.lastRefill
    { s1 with
      tokens := min s1.capacity (s1.tokens + elapsedAfterWait * s1.rate) - n,
      lastRefill := nowAfterWait }

/-- One acquire call of a trace: requested token count, the clock
reading at entry, and the clock reading after the pacing sleep. -/
structure AcquireCall where
  n : ℚ
  now : ℚ
  nowAfterWait : ℚ
deriving Repr, DecidableEq

/-- Run a sequence of acquire calls from an initial limiter state. -/
def acquireSeq (s : RateLimiterState) : List AcquireCall → RateLimiterState
  | [] => s
  | c :: cs => acquireSeq (acquire s c.n c.now c.nowAfterWait) cs

/-- Well-formedness of one acquire call against the current state: the
request fits the capacity, the clock is monotone, and the wake-up time
is at least the pacing wait computed by the code. -/
def validCall (s : RateLimiterState) (c : AcquireCall) : Prop :=
  0 ≤ c.n ∧ c.n ≤ s.capacity ∧ s.lastRefill ≤ c.now ∧
    c.now + (c.n - (refill s c.now).tokens) / s.rate ≤ c.nowAfterWait

/-- Well-formedness of a whole trace of acquire calls, each judged
against the state it actually runs in. -/
def validCalls (s : RateLimiterState) : List AcquireCall → Prop
  | [] => True
  | c :: cs => validCall s c ∧ validCalls (acquire s c.n c.now c.nowAfterWait) cs

/-- Bucket invariant of the rate limiter: the token count stays
between zero and the capacity. -/
def BucketInv (s : RateLimiterState) : Prop :=
  0 ≤ s.tokens ∧ s.tokens ≤ s.capacity

/-- One detected trade to copy (trade_execution_service.py, class
TradeSignal): source trader address, transaction hash, token id, side,
USD notional of the trader, optional fill price and share count, and
the detection timestamp. -/
structure TradeSignal where
  sourceAddress : String
  originalTxHash : String
  tokenId : String
  side : String
  amountUsdc : ℚ
  price : Option ℚ
  shares : Option ℚ
  detectedAt : ℚ
deriving Repr, DecidableEq

/-- TradeExecutionService._calculate_price_with_premium
(trade_execution_service.py lines 684 to 724): BUY refuses a trader
price above 0.99, otherwise adds the 0.02 premium and clamps to
[0.001, 0.99]; SELL subtracts the premium and clamps to [0.01, 0.99]. -/
def calculatePriceWithPremium (side : String) (traderPrice : ℚ) : Option ℚ :=
  let premium : ℚ := 2/100
  let capMin : ℚ := 1/1000
  let capMax : ℚ := 99/100
  if side = "BUY" then
    if (99 : ℚ)/100 < traderPrice then none
    else some (min (max (traderPrice + premium) capMin) capMax)
  else
    some (min (max (traderPrice - premium) (1/100)) capMax)

/-- TradeExecutionService._validate_signal (trade_execution_service.py
lines 411 to 441): reject a duplicate transaction hash, a signal older
than the expiry, or missing token id, side, or non-positive notional. -/
def validateSignal (processedSignals : List String) (signalExpiry now : ℚ)
    (s : TradeSignal) : Bool :=
  if s.originalTxHash ∈ processedSignals then false
  else if signalExpiry < now - s.detectedAt then false
  else if s.tokenId = "" ∨ s.side = "" ∨ s.amountUsdc ≤ 0 then false
  else true

/-- One record of the trader activity feed, as used by the poller
filter in MonitorService.fetch_trader_activities: the event type, the
normalized timestamp, and the transaction hash (possibly absent). -/
structure Activity where
  type : String
  timestamp : ℚ
  transactionHash : Option String
deriving Repr, DecidableEq

/-- Poller state shared by MonitorService.fetch_trader_activities: the
set of seen transaction hashes and the per-trader watermark of the
last processed activity timestamp. -/
structure MonitorState where
  processedHashes : List (Option String)
  lastFetchTime : List (String × ℚ)
deriving Repr, DecidableEq

/-- Watermark lookup, self.last_fetch_time.get(trader, 0). -/
def lookupTime (m : List (String × ℚ)) (trader : String) : ℚ :=
  match m.find? (fun kv => kv.1 = trader) with
  | some kv => kv.2
  | none => 0

/-- Watermark update, self.last_fetch_time[trader] = t. -/
def setTime (m : List (String × ℚ)) (trader : String) (t : ℚ) : List (String × ℚ) :=
  (trader, t) :: m.filter (fun kv => kv.1 ≠ trader)

/-- Per-record filter of MonitorService.fetch_trader_activities
(monitor_service.py lines 321 to 353): skip non-trade events, records
older than the cutoff, hashes already seen, and timestamps at or below
the watermark; otherwise enqueue one trade package, record the hash,
and advance the watermark.  The returned Boolean tells whether a trade
package was enqueued. -/
def processActivity (st : MonitorState) (trader : String) (cutoff : ℚ)
    (a : Activity) : MonitorState × Bool :=
  if a.type ≠ "TRADE" then (st, false)
  else if a.timestamp < cutoff then (st, false)
  else if a.transactionHash ∈ st.processedHashes then (st, false)
  else if a.timestamp ≤ lookupTime st.lastFetchTime trader then (st, false)
  else
    ({ processedHashes := a.transactionHash :: st.processedHashes,
       lastFetchTime := setTime st.lastFetchTime trader
         (max (lookupTime st.lastFetchTime trader) a.timestamp) },
     true)

/-- Kind of the submitted order: a resting limit order (GTC) or a
market order used for dust liquidation. -/
inductive OrderType
  | GTC
  | MARKET
deriving Repr, DecidableEq

/-- Order parameters produced by
TradeExecutionService._calculate_order_params on success: the limit
price, the USDC amount (size), the share count, and the order kind. -/
structure OrderParams where
  tokenId : String
  side : String
  price : ℚ
  size : ℚ
  shares : ℚ
  orderType : OrderType
deriving Repr, DecidableEq

/-- Sizing-related configuration (config.py): the global maximum order
size (default 10000), the optional minimum order size (default absent),
the maximum trader usage cap as a fraction (default 0.1), the copy
ratio multiplier for the trader, and whether the wallet is a funded
relay-style wallet (no gas reserve) or holds gas-paying funds. -/
structure SizerConfig where
  maxOrderSize : ℚ
  minOrderSize : Option ℚ
  maxTraderUsageCap : ℚ
  copyRatio : ℚ
  walletIsProxy : Bool
deriving Repr, DecidableEq

/-- Default configuration values from config.py. -/
def defaultConfig : SizerConfig :=
  { maxOrderSize := 10000
    minOrderSize := none
    maxTraderUsageCap := 1/10
    copyRatio := 1/10
    walletIsProxy := true }

/-- Snapshot values read by the sizer from the balance and position
caches: our share balance for the token, the pre-trade share balance
of the trader for the token, the trader USDC balance, and our USDC
balance. -/
structure SizerEnv where
  ourPositionShares : ℚ
  traderPositionShares : ℚ
  traderBalance : ℚ
  ourBalance : ℚ
deriving Repr, DecidableEq

/-- ASCII lowering of one character, modelling the Python str.lower
call used for the case-insensitive address comparison. -/
def lowerChar (c : Char) : Char :=
  if c.isUpper then Char.ofNat (c.toNat + 32) else c

/-- ASCII lowering of a string, modelling Python str.lower. -/
def lowerStr (s : String) : String :=
  ⟨s.data.map lowerChar⟩

/-- Dictionary lookup balance_cache[key].balance used by
TradeExecutionService._get_trader_usdc_balance. -/
def lookupBalance (c : List (String × ℚ)) (k : String) : ℚ :=
  match c.find? (fun kv => kv.1 = k) with
  | some kv => kv.2
  | none => 0

/-- TradeExecutionService._get_trader_usdc_balance
(trade_execution_service.py lines 1697 to 1743): read the trader USDC
balance from the in-memory balance cache, first by exact key, then by
a case-insensitive scan.  When the memory monitor is unavailable or
the trader is absent from the cache, the code returns the default
value 1000.0 instead of failing. -/
def getTraderUsdcBalance (cache : Option (List (String × ℚ)))
    (trader : String) : ℚ :=
  match cache with
  | none => 1000
  | some c =>
    let targetKey : Option String :=
      if c = [] then none
      else if c.any (fun kv => kv.1 = trader) then some trader
      else
        match c.find? (fun kv => lowerStr kv.1 = lowerStr trader) with
        | some kv => some kv.1
        | none => none
    match targetKey with
    | some k => if k = "" then 1000 else lookupBalance c k
    | none => 1000

/-- TradeExecutionService._apply_buy_minimums
(trade_execution_service.py lines 907 to 955): with a positive price,
compute shares from the target amount, lift them to at least 5,
recompute the amount, and refuse entirely when the recomputed amount
is below 1 USDC. -/
def applyBuyMinimums (targetAmount orderPrice : ℚ) : Option ℚ :=
  if orderPrice ≤ 0 then none
  else
    let rawShares := targetAmount / orderPrice
    let finalShares := max rawShares 5
    let finalAmount := finalShares * orderPrice
    if finalAmount < 1 then none
    else some finalAmount

/-- Trader usage ratio in percent (trade_execution_service.py lines
1063 to 1067): the trader notional over the trader balance times 100,
or 0 when the balance is not positive. -/
def traderUsageRatioPct (amountUsdc traderBalance : ℚ) : ℚ :=
  if 0 < traderBalance then amountUsdc / traderBalance * 100 else 0

/-- Large-order bump (trade_execution_service.py lines 1072 to 1075):
when the trader notional exceeds 1000 USDC and the usage ratio is
strictly between 0 and 1 percent, force the ratio up to 1 percent. -/
def bumpLargeOrderRatio (amountUsdc ratio : ℚ) : ℚ :=
  if 1000 < amountUsdc ∧ 0 < ratio ∧ ratio < 1 then 1 else ratio

/-- Usage-cap clamp (trade_execution_service.py lines 1085 to 1086):
the effective ratio in percent is the raw ratio clipped at the
configured cap times 100. -/
def effectiveUsageRatioPct (cap ratio : ℚ) : ℚ :=
  min ratio (cap * 100)

/-- Minimum-order-size test (trade_execution_service.py lines 1161 and
1211): true when a minimum is configured and the amount is below it. -/
def belowMinOrder (minOrderSize : Option ℚ) (amount : ℚ) : Bool :=
  match minOrderSize with
  | some m => decide (amount < m)
  | none => false

/-- Spendable balance for a BUY (trade_execution_service.py lines 1189
to 1192): the full balance for a relay-style wallet, 90 percent of the
balance otherwise. -/
def maxAffordableBuy (cfg : SizerConfig) (ourBalance : ℚ) : ℚ :=
  if cfg.walletIsProxy then ourBalance else ourBalance * (9/10)

/-- BUY branch of TradeExecutionService._calculate_order_params
(trade_execution_service.py lines 1057 to 1260): proportional sizing
from the trader usage ratio with the large-order bump and the usage
cap, capped at the trader notional, run through the BUY minimums, then
the global maximum order size, the optional minimum order size, and
the balance sufficiency checks. -/
def calcOrderParamsBuy (cfg : SizerConfig) (env : SizerEnv)
    (sig : TradeSignal) (orderPrice : ℚ) : Option OrderParams :=
  let ratio0 := traderUsageRatioPct sig.amountUsdc env.traderBalance
  let ratio := bumpLargeOrderRatio sig.amountUsdc ratio0
  if 0 < ratio then
    let effectiveRatio := effectiveUsageRatioPct cfg.maxTraderUsageCap ratio
    let proportionalAmount := env.ourBalance * (effectiveRatio / 100)
    let targetAmount0 := proportionalAmount * cfg.copyRatio
    let targetAmount1 := min targetAmount0 sig.amountUsdc
    match applyBuyMinimums targetAmount1 orderPrice with
    | none => none
    | some adjusted =>
      let targetAmount2 := if cfg.maxOrderSize < adjusted then cfg.maxOrderSize else adjusted
      if belowMinOrder cfg.minOrderSize targetAmount2 then none
      else
        let maxAffordable := maxAffordableBuy cfg env.ourBalance
        if maxAffordable < targetAmount2 then none
        else
          let orderAmount := if maxAffordable < targetAmount2 then maxAffordable else targetAmount2
          if belowMinOrder cfg.minOrderSize orderAmount then none
          else if maxAffordable < orderAmount then none
          else if orderAmount ≤ 0 then none
          else
            let shares := if 0 < orderPrice then orderAmount / orderPrice else 0
            some { tokenId := sig.tokenId, side := sig.side, price := orderPrice,
                   size := orderAmount, shares := shares, orderType := OrderType.GTC }
  else none

/-- Derivation of the share count the trader sold
(trade_execution_service.py lines 1008 to 1015): use signal.shares
when present and positive, otherwise divide the trader notional by the
signal price (falling back to the order price) when that reference
price is positive, otherwise 0. -/
def traderSoldShares (sig : TradeSignal) (orderPrice : ℚ) : ℚ :=
  let refPrice :=
    match sig.price with
    | some p => if p = 0 then orderPrice else p
    | none => orderPrice
  let fallback := if 0 < refPrice then sig.amountUsdc / refPrice else 0
  match sig.shares with
  | some s => if s ≤ 0 then fallback else s
  | none => fallback

/-- Sell ratio (trade_execution_service.py lines 1018 to 1022): the
sold share count over the trader prior position, clipped at 1, when
both are positive; otherwise the default 1 (full exit). -/
def sellRatio (traderTotal traderSold : ℚ) : ℚ :=
  if 0 < traderTotal ∧ 0 < traderSold then min (traderSold / traderTotal) 1 else 1

/-- SELL branch of TradeExecutionService._calculate_order_params
(trade_execution_service.py lines 989 to 1260): with no position the
signal is skipped; a position below 5 shares is liquidated in full by
a market order; otherwise the position is sold proportionally with a
minimum of 5 shares, capped at the position.  The sell amount is then
capped at the position value; the maximum order size and the USDC
balance checks are not applied on this side. -/
def calcOrderParamsSell (cfg : SizerConfig) (env : SizerEnv)
    (sig : TradeSignal) (orderPrice : ℚ) : Option OrderParams :=
  if env.ourPositionShares ≤ 0 then none
  else
    let traderSold := traderSoldShares sig orderPrice
    let ratio := sellRatio env.traderPositionShares traderSold
    let dust := env.ourPositionShares < 5
    let ourSellShares :=
      if dust then env.ourPositionShares
      else
        let s0 := env.ourPositionShares * ratio
        let s1 := if s0 < 5 then 5 else s0
        if env.ourPositionShares < s1 then env.ourPositionShares else s1
    let targetAmount0 := if orderPrice = 0 then 0 else ourSellShares * orderPrice
    let positionValue := if orderPrice = 0 then 0 else env.ourPositionShares * orderPrice
    let targetAmount := if positionValue < targetAmount0 then positionValue else targetAmount0
    let orderAmount := targetAmount
    if belowMinOrder cfg.minOrderSize orderAmount then none
    else if orderAmount ≤ 0 then none
    else
      let shares := if 0 < orderPrice then orderAmount / orderPrice else 0
      some { tokenId := sig.tokenId, side := sig.side, price := orderPrice,
             size := orderAmount, shares := shares,
             orderType := if dust then OrderType.MARKET else OrderType.GTC }

/-- Side dispatch of TradeExecutionService._calculate_order_params. -/
def calculateOrderParams (cfg : SizerConfig) (env : SizerEnv)
    (sig : TradeSignal) (orderPrice : ℚ) : Option OrderParams :=
  if sig.side = "SELL" then calcOrderParamsSell cfg env sig orderPrice
  else calcOrderParamsBuy cfg env sig orderPrice

/-- Results of the outside-service calls made by
TradeExecutionService.execute_copy_trade that are not part of the
sizer itself: the SELL-side position check, the BUY-side trader
balance threshold filter, the computed order price, and the order id
returned by order placement (absent on a failed submission). -/
structure ExecEnv where
  ourHasPosition : Bool
  skipBuyThreshold : Bool
  orderPrice : Option ℚ
  placeOrderId : Option String
deriving Repr, DecidableEq

/-- TradeExecutionService.execute_copy_trade
(trade_execution_service.py lines 168 to 409): validate the signal,
run the side-specific pre-checks, price, size, and submit.  The
returned pair is the success flag together with the processed-signals
dedup set after the call; the transaction hash is added to that set
only on the success path, after an order id was returned (line 397). -/
def executeCopyTrade (cfg : SizerConfig) (senv : SizerEnv)
    (processed : List String) (signalExpiry now : ℚ) (sig : TradeSignal)
    (env : ExecEnv) : Bool × List String :=
  if validateSignal processed signalExpiry now sig then
    if sig.side = "SELL" ∧ env.ourHasPosition = false then (false, processed)
    else if sig.side = "BUY" ∧ env.skipBuyThreshold = true then (false, processed)
    else
      match env.orderPrice with
      | none => (false, processed)
      | some p =>
        if p = 0 then (false, processed)
        else
          match calculateOrderParams cfg senv sig p with
          | none => (false, processed)
          | some _ =>
            match env.placeOrderId with
            | none => (false, processed)
            | some oid =>
              if oid = "" then (false, processed)
              else (true, sig.originalTxHash :: processed)
  else (false, processed)

/-- Status of an open order as reported by the exchange and mapped in
TradeExecutionService._get_order_status. -/
inductive OrdStatus
  | pending
  | partFilled
  | filled
  | cancelled
  | expired
  | unknown
deriving Repr, DecidableEq

/-- One successfully parsed status poll: the mapped status and the
expiry timestamp attached to the order record. -/
structure PolledOrder where
  status : OrdStatus
  expiresAt : ℚ
deriving Repr, DecidableEq

/-- One iteration of the lifecycle loop: the elapsed time since the
loop start measured at the while condition, the status poll result
(absent on a query failure), and the clock reading at the expiry
check. -/
structure LifecycleIter where
  elapsedAtCheck : ℚ
  poll : Option PolledOrder
  nowAtExpiryCheck : ℚ
deriving Repr, DecidableEq

/-- Cancellation behaviour of
TradeExecutionService._manage_order_lifecycle
(trade_execution_service.py lines 1552 to 1597): the loop runs while
the elapsed time is below the order timeout; a failed status query
just continues; a filled or cancelled status stops without a cancel
request; a cancel request is issued only when the polled status
carries an expiry timestamp that is already in the past; and when the
while condition fails the loop stops without any cancel request.  The
result tells whether a cancel request was issued. -/
def lifecycleCancels (orderTimeout : ℚ) : List LifecycleIter → Bool
  | [] => false
  | it :: rest =>
    if orderTimeout ≤ it.elapsedAtCheck then false
    else
      match it.poll with
      | none => lifecycleCancels orderTimeout rest
      | some st =>
        if st.status = OrdStatus.filled ∨ st.status = OrdStatus.cancelled then false
        else if st.expiresAt < it.nowAtExpiryCheck then true
        else lifecycleCancels orderTimeout rest

/-- Concrete BUY signal used by the concrete evaluations below. -/
def buySig : TradeSignal :=
  { sourceAddress := "0xbbb"
    originalTxHash := "0xhash1"
    tokenId := "tok1"
    side := "BUY"
    amountUsdc := 100
    price := some (48/100)
    shares := none
    detectedAt := 0 }

/-- Concrete SELL signal used by the concrete evaluations below. -/
def sellSigBig : TradeSignal :=
  { sourceAddress := "0xbbb"
    originalTxHash := "0xhash2"
    tokenId := "tokS"
    side := "SELL"
    amountUsdc := 90
    price := some (9/10)
    shares := some 100
    detectedAt := 0 }

/-- Concrete sizer snapshot with a large position and a small USDC
balance, used by the concrete evaluations below. -/
def sellEnvBig : SizerEnv :=
  { ourPositionShares := 20000
    traderPositionShares := 100
    traderBalance := 1000
    ourBalance := 50 }

/-- Concrete sizer snapshot for BUY evaluations. -/
def buyEnv : SizerEnv :=
  { ourPositionShares := 0
    traderPositionShares := 0
    traderBalance := 1000
    ourBalance := 500 }

/-- Concrete stale signal: detected 61 seconds before a clock reading
of 100 with the default 60 second expiry. -/
def staleSig : TradeSignal :=
  { buySig with detectedAt := 39 }

/-- Concrete activity record used by the dedup evaluations. -/
def actA : Activity :=
  { type := "TRADE", timestamp := 100, transactionHash := some "0xh" }

/-- Empty poller state. -/
def monSt0 : MonitorState :=
  { processedHashes := [], lastFetchTime := [] }

/-- Concrete lifecycle trace in which the order stays pending with a
far-future reported expiry until the 300 second loop timeout passes. -/
def pendingTrace : List LifecycleIter :=
  [{ elapsedAtCheck := 10, poll := some ⟨OrdStatus.pending, 100000⟩, nowAtExpiryCheck := 10 },
   { elapsedAtCheck := 20, poll := some ⟨OrdStatus.pending, 100000⟩, nowAtExpiryCheck := 20 },
   { elapsedAtCheck := 300, poll := some ⟨OrdStatus.pending, 100000⟩, nowAtExpiryCheck := 300 }]

/-- Concrete lifecycle trace in which the first poll reports a
non-terminal order whose expiry timestamp is already in the past. -/
def expiredTrace : List LifecycleIter :=
  [{ elapsedAtCheck := 10, poll := some ⟨OrdStatus.pending, 5⟩, nowAtExpiryCheck := 10 }]

/- ------------------------------------------------------------------
Theorems.
------------------------------------------------------------------ -/

/-- Helper: a successful BUY-minimums computation returns the lifted
amount, which is at least 1 USDC. -/
theorem applyBuyMinimums_eq (t p a : ℚ) (hp : 0 < p)
    (h : applyBuyMinimums t p = some a) :
    1 ≤ a ∧ a = max (t / p) 5 * p := by
  simp only [applyBuyMinimums] at h
  rw [if_neg (not_le.mpr hp)] at h
  split_ifs at h with hlt
  have he := Option.some.inj h
  exact ⟨he ▸ not_lt.mp hlt, he.symm⟩

/-- Helper: a signal that passes validation has a transaction hash
outside the processed set. -/
theorem validateSignal_true_not_mem (ps : List String) (e n : ℚ)
    (s : TradeSignal) (h : validateSignal ps e n s = true) :
    s.originalTxHash ∉ ps := by
  intro hmem
  unfold validateSignal at h
  rw [if_pos hmem] at h
  exact Bool.noConfusion h

/-- Helper: a record whose hash was already seen is fully skipped by
the poller filter. -/
theorem processActivity_mem (st : MonitorState) (trader : String) (c : ℚ)
    (a : Activity) (h : a.transactionHash ∈ st.processedHashes) :
    processActivity st trader c a = (st, false) := by
  unfold processActivity
  split_ifs <;> rfl

/-- Helper: when the poller filter enqueues a record, the record hash
is in the seen set of the resulting state. -/
theorem processActivity_enqueued_mem (st : MonitorState) (trader : String)
    (c : ℚ) (a : Activity) (h : (processActivity st trader c a).2 = true) :
    a.transactionHash ∈ (processActivity st trader c a).1.processedHashes := by
  unfold processActivity at h ⊢
  split_ifs at h ⊢ <;> simp_all

/-- C3: for every trader price in [0, 5], a computed order price lies
in [0.001, 0.99], with the stronger lower bound 0.01 on the SELL side;
and for BUY with a trader price above 0.99 no price is computed
(TradeExecutionService._calculate_price_with_premium). -/
theorem price_clamp_bounds (side : String) (p : ℚ) (h0 : 0 ≤ p) (h5 : p ≤ 5) :
    (side = "BUY" → (99 : ℚ)/100 < p → calculatePriceWithPremium side p = none) ∧
    (∀ q, calculatePriceWithPremium side p = some q →
      (1 : ℚ)/1000 ≤ q ∧ q ≤ 99/100 ∧ (side = "SELL" → (1 : ℚ)/100 ≤ q)) := by
  constructor
  · intro hside hgt
    simp only [calculatePriceWithPremium, if_pos hside, if_pos hgt]
  · intro q hq
    simp only [calculatePriceWithPremium] at hq
    by_cases hside : side = "BUY"
    · rw [if_pos hside] at hq
      by_cases hgt : (99 : ℚ)/100 < p
      · rw [if_pos hgt] at hq
        exact Option.noConfusion hq
      · rw [if_neg hgt] at hq
        have he := Option.some.inj hq
        subst he
        refine ⟨le_min (le_max_right _ _) (by norm_num), min_le_right _ _, ?_⟩
        intro hsell
        rw [hside] at hsell
        exact absurd hsell (by decide)
    · rw [if_neg hside] at hq
      have he := Option.some.inj hq
      subst he
      refine ⟨le_min (le_trans (by norm_num) (le_max_right _ _)) (by norm_num),
        min_le_right _ _, ?_⟩
      intro _
      exact le_min (le_max_right _ _) (by norm_num)

/-- C3 witness: the theorem at side BUY and trader price 1/2, whose
computed price is 13/25. -/
theorem price_clamp_bounds_witness :
    (0 : ℚ) ≤ 1/2 ∧ (1 : ℚ)/2 ≤ 5 ∧
      ((1 : ℚ)/1000 ≤ 13/25 ∧ (13 : ℚ)/25 ≤ 99/100 ∧
        ("BUY" = "SELL" → (1 : ℚ)/100 ≤ 13/25)) :=
  ⟨by norm_num, by norm_num,
    (price_clamp_bounds "BUY" (1/2) (by norm_num) (by norm_num)).2 (13/25)
      (by norm_num [calculatePriceWithPremium, min_def, max_def])⟩

/-- C8: a signal whose age exceeds the expiry is rejected by the
validator regardless of its other fields
(TradeExecutionService._validate_signal). -/
theorem stale_signal_rejected (ps : List String) (signalExpiry now : ℚ)
    (s : TradeSignal) (h : signalExpiry < now - s.detectedAt) :
    validateSignal ps signalExpiry now s = false := by
  unfold validateSignal
  by_cases hmem : s.originalTxHash ∈ ps
  · rw [if_pos hmem]
  · rw [if_neg hmem, if_pos h]

/-- C8 witness: the theorem at a signal detected 61 seconds before a
clock reading of 100 with the default 60 second expiry. -/
theorem stale_signal_rejected_witness :
    (60 : ℚ) < 100 - staleSig.detectedAt ∧ validateSignal [] 60 100 staleSig = false :=
  ⟨by norm_num [staleSig, buySig],
    stale_signal_rejected [] 60 100 staleSig (by norm_num [staleSig, buySig])⟩

/-- C6: replaying the same activity record through the poller filter a
second time enqueues nothing, and a hash already in the seen set is
never reprocessed (MonitorService.fetch_trader_activities). -/
theorem activity_replay_dedup (st : MonitorState) (trader : String)
    (c1 c2 c3 : ℚ) (a : Activity) :
    ((processActivity st trader c1 a).2 = true →
      (processActivity (processActivity st trader c1 a).1 trader c2 a).2 = false) ∧
    (a.transactionHash ∈ st.processedHashes →
      processActivity st trader c3 a = (st, false)) := by
  refine ⟨?_, fun h => processActivity_mem st trader c3 a h⟩
  intro h1
  have hmem := processActivity_enqueued_mem st trader c1 a h1
  rw [processActivity_mem _ trader c2 a hmem]

/-- C6 witness: the theorem at an empty poller state and a concrete
trade record, which the first pass enqueues. -/
theorem activity_replay_dedup_witness :
    (processActivity (processActivity monSt0 "0xT" 0 actA).1 "0xT" 0 actA).2 = false :=
  (activity_replay_dedup monSt0 "0xT" 0 0 0 actA).1 (by decide)

/-- C2: the effective usage ratio fed into proportional sizing never
exceeds the configured cap (in percent), even after the large-order
bump, so the proportional amount times the copy ratio is at most
ourBalance times cap times copyRatio
(BUY branch of TradeExecutionService._calculate_order_params). -/
theorem usage_cap_never_exceeded (cap amountUsdc traderBalance ourBalance copyRatio : ℚ)
    (hb : 0 ≤ ourBalance) (hc : 0 ≤ copyRatio) :
    effectiveUsageRatioPct cap (bumpLargeOrderRatio amountUsdc
        (traderUsageRatioPct amountUsdc traderBalance)) ≤ cap * 100 ∧
    ourBalance * (effectiveUsageRatioPct cap (bumpLargeOrderRatio amountUsdc
        (traderUsageRatioPct amountUsdc traderBalance)) / 100) * copyRatio
      ≤ ourBalance * cap * copyRatio := by
  have h1 : effectiveUsageRatioPct cap (bumpLargeOrderRatio amountUsdc
      (traderUsageRatioPct amountUsdc traderBalance)) ≤ cap * 100 :=
    min_le_right _ _
  refine ⟨h1, ?_⟩
  have hbc : 0 ≤ ourBalance * copyRatio := mul_nonneg hb hc
  nlinarith [mul_le_mul_of_nonneg_left h1 hbc]

/-- C2 witness: the theorem at cap 0.1, trader notional 100, trader
balance 1000, our balance 500, copy ratio 0.1. -/
theorem usage_cap_never_exceeded_witness :
    (0 : ℚ) ≤ 500 ∧ (0 : ℚ) ≤ 1/10 ∧
      (effectiveUsageRatioPct (1/10) (bumpLargeOrderRatio 100
          (traderUsageRatioPct 100 1000)) ≤ (1 : ℚ)/10 * 100 ∧
        (500 : ℚ) * (effectiveUsageRatioPct (1/10) (bumpLargeOrderRatio 100
          (traderUsageRatioPct 100 1000)) / 100) * (1/10) ≤ 500 * (1/10) * (1/10)) :=
  ⟨by norm_num, by norm_num,
    usage_cap_never_exceeded (1/10) 100 1000 500 (1/10) (by norm_num) (by norm_num)⟩

set_option maxHeartbeats 1000000 in
/-- Helper: the size of a successful SELL sizing is bounded by the
position value. -/
theorem calcSell_size_bound (cfg : SizerConfig) (env : SizerEnv)
    (sig : TradeSignal) (p : ℚ) (op : OrderParams)
    (h : calcOrderParamsSell cfg env sig p = some op) :
    op.size ≤ env.ourPositionShares * p := by
  simp only [calcOrderParamsSell] at h
  split_ifs at h <;>
    first
      | exact Option.noConfusion h
      | (rw [Option.some.injEq] at h
         subst h
         dsimp only
         linarith)

set_option maxHeartbeats 1000000 in
/-- Helper: concrete evaluation of the SELL sizing at a large
position, a 0.9 order price, and a full trader exit. -/
theorem calcSell_big_eval :
    calcOrderParamsSell defaultConfig sellEnvBig sellSigBig (9/10) =
      some ⟨"tokS", "SELL", 9/10, 18000, 20000, OrderType.GTC⟩ := by
  norm_num [calcOrderParamsSell, traderSoldShares, sellRatio, belowMinOrder,
    defaultConfig, sellEnvBig, sellSigBig, min_def]

/-- C10: the SELL branch of the sizer reads neither the maximum order
size nor our USDC balance, its output amount is capped by the position
value, and a concrete large position yields an accepted SELL order
whose notional exceeds both the default maximum order size and the
wallet balance (SELL branch of
TradeExecutionService._calculate_order_params). -/
theorem sell_ignores_cap_and_balance :
    (∀ (cfg : SizerConfig) (env : SizerEnv) (sig : TradeSignal) (p m b : ℚ),
      calcOrderParamsSell cfg env sig p =
        calcOrderParamsSell { cfg with maxOrderSize := m }
          { env with ourBalance := b } sig p) ∧
    (∀ (cfg : SizerConfig) (env : SizerEnv) (sig : TradeSignal) (p : ℚ)
        (op : OrderParams), calcOrderParamsSell cfg env sig p = some op →
      op.size ≤ env.ourPositionShares * p) ∧
    (∃ op, calcOrderParamsSell defaultConfig sellEnvBig sellSigBig (9/10) = some op ∧
      defaultConfig.maxOrderSize < op.size ∧ sellEnvBig.ourBalance < op.size) := by
  refine ⟨fun cfg env sig p m b => rfl,
    fun cfg env sig p op h => calcSell_size_bound cfg env sig p op h, ?_⟩
  refine ⟨⟨"tokS", "SELL", 9/10, 18000, 20000, OrderType.GTC⟩, calcSell_big_eval, ?_, ?_⟩
  · norm_num [defaultConfig]
  · norm_num [sellEnvBig]

/-- C10 witness: the position-value bound of the theorem at the
concrete large-position instance. -/
theorem sell_ignores_cap_and_balance_witness :
    OrderParams.size ⟨"tokS", "SELL", 9/10, 18000, 20000, OrderType.GTC⟩ ≤
      sellEnvBig.ourPositionShares * (9/10) :=
  sell_ignores_cap_and_balance.2.1 defaultConfig sellEnvBig sellSigBig (9/10)
    ⟨"tokS", "SELL", 9/10, 18000, 20000, OrderType.GTC⟩ calcSell_big_eval

/-- C5 counterexample: an order that stays pending with a far-future
reported expiry for the whole 300 second timeout window; the lifecycle
loop exits by its while condition without issuing any cancel request,
contradicting the claim that a cancel is issued on timeout. -/
theorem timeout_without_cancel_cex :
    lifecycleCancels 300 pendingTrace = false := by decide

/-- C5 amended: the lifecycle manager issues a cancel request only
when a status poll inside the timeout window reports a non-terminal
order whose reported expiry timestamp is already in the past; a plain
loop timeout issues no cancel
(TradeExecutionService._manage_order_lifecycle). -/
theorem lifecycle_cancel_requires_reported_expiry (T : ℚ)
    (tr : List LifecycleIter) (h : lifecycleCancels T tr = true) :
    ∃ it ∈ tr, it.elapsedAtCheck < T ∧
      ∃ st, it.poll = some st ∧ st.status ≠ OrdStatus.filled ∧
        st.status ≠ OrdStatus.cancelled ∧ st.expiresAt < it.nowAtExpiryCheck := by
  induction tr with
  | nil => exact Bool.noConfusion h
  | cons it rest ih =>
    rcases hp : it.poll with _ | st <;>
      simp only [lifecycleCancels, hp] at h
    · split_ifs at h with h1
      obtain ⟨it2, hmem, hrest⟩ := ih h
      exact ⟨it2, List.mem_cons_of_mem _ hmem, hrest⟩
    · split_ifs at h with h1 h2 h3
      · exact ⟨it, List.mem_cons_self _ _, not_le.mp h1,
          st, hp, fun hf => h2 (Or.inl hf), fun hc => h2 (Or.inr hc), h3⟩
      · obtain ⟨it2, hmem, hrest⟩ := ih h
        exact ⟨it2, List.mem_cons_of_mem _ hmem, hrest⟩

/-- C5 witness: the amended theorem at a trace whose first poll
reports a pending order with a past expiry timestamp. -/
theorem lifecycle_cancel_requires_reported_expiry_witness :
    ∃ it ∈ expiredTrace, it.elapsedAtCheck < 300 ∧
      ∃ st, it.poll = some st ∧ st.status ≠ OrdStatus.filled ∧
        st.status ≠ OrdStatus.cancelled ∧ st.expiresAt < it.nowAtExpiryCheck :=
  lifecycle_cancel_requires_reported_expiry 300 expiredTrace (by decide)

/-- Helper: the execution entry point either succeeds with a validated
signal and a non-empty order id, extending the processed set by the
signal hash, or fails and leaves the processed set unchanged. -/
theorem executeCopyTrade_cases (cfg : SizerConfig) (senv : SizerEnv)
    (processed : List String) (signalExpiry now : ℚ) (sig : TradeSignal)
    (hposn hskip : Bool) (oprice : Option ℚ) (oid : Option String) :
    (validateSignal processed signalExpiry now sig = true ∧
      (∃ o, oid = some o ∧ o ≠ "") ∧
      executeCopyTrade cfg senv processed signalExpiry now sig
          ⟨hposn, hskip, oprice, oid⟩ =
        (true, sig.originalTxHash :: processed)) ∨
    executeCopyTrade cfg senv processed signalExpiry now sig
        ⟨hposn, hskip, oprice, oid⟩ = (false, processed) := by
  unfold executeCopyTrade
  rcases oprice with _ | p
  · dsimp only
    split_ifs <;> exact Or.inr rfl
  · dsimp only
    rcases hcalc : calculateOrderParams cfg senv sig p with _ | prm <;>
      dsimp only
    · split_ifs <;> exact Or.inr rfl
    · rcases oid with _ | o
      · dsimp only
        split_ifs <;> exact Or.inr rfl
      · dsimp only
        split_ifs with hv h1 h2 hz he <;>
          first
            | exact Or.inr rfl
            | exact Or.inl ⟨hv, ⟨o, rfl, he⟩, rfl⟩

/-- C9: the processed-signals dedup set is extended with the signal
transaction hash exactly when the call succeeds, success implies an
order id was returned and the hash was not already in the set, and
every rejected or failed path leaves the set unchanged, so a later
delivery of the same hash is re-evaluated
(TradeExecutionService.execute_copy_trade). -/
theorem processed_signals_add_only_on_success (cfg : SizerConfig)
    (senv : SizerEnv) (processed : List String) (signalExpiry now : ℚ)
    (sig : TradeSignal) (env : ExecEnv) :
    (executeCopyTrade cfg senv processed signalExpiry now sig env).2 =
      (if (executeCopyTrade cfg senv processed signalExpiry now sig env).1 = true
        then sig.originalTxHash :: processed else processed) ∧
    ((executeCopyTrade cfg senv processed signalExpiry now sig env).1 = true →
      sig.originalTxHash ∉ processed ∧ env.placeOrderId ≠ none) := by
  obtain ⟨hposn, hskip, oprice, oid⟩ := env
  rcases executeCopyTrade_cases cfg senv processed signalExpiry now sig
      hposn hskip oprice oid with ⟨hv, ⟨o, ho, _⟩, heq⟩ | heq
  · rw [heq]
    refine ⟨by simp, fun _ => ⟨validateSignal_true_not_mem _ _ _ _ hv, ?_⟩⟩
    simp [ho]
  · rw [heq]
    exact ⟨by simp, fun hfalse => Bool.noConfusion hfalse⟩

/-- C9 witness: the theorem at a concrete successful BUY execution. -/
theorem processed_signals_add_only_on_success_witness :
    buySig.originalTxHash ∉ ([] : List String) ∧
      (ExecEnv.placeOrderId ⟨true, false, some (1/2), some "oid1"⟩ ≠ none) :=
  (processed_signals_add_only_on_success defaultConfig buyEnv [] 60 10 buySig
      ⟨true, false, some (1/2), some "oid1"⟩).2
    (by norm_num [executeCopyTrade, validateSignal, calculateOrderParams,
      calcOrderParamsBuy, traderUsageRatioPct, bumpLargeOrderRatio,
      effectiveUsageRatioPct, applyBuyMinimums, belowMinOrder, maxAffordableBuy,
      defaultConfig, buyEnv, buySig, min_def, max_def,
      (by decide : ¬(("BUY" : String) = "SELL")),
      (by decide : ¬(("tok1" : String) = "")),
      (by decide : ¬(("BUY" : String) = "")),
      (by decide : ¬(("oid1" : String) = ""))])

/-- C4 counterexample: a trader absent from the balance snapshot is
given the default balance 1000.0 by _get_trader_usdc_balance, and the
BUY sizer then produces an order from that fallback instead of
skipping the signal, contradicting the claim that an unknown balance
skips with no fallback sizing. -/
theorem missing_trader_balance_fallback_cex :
    getTraderUsdcBalance (some [("0xaaa", 500)]) "0xbbb" = 1000 ∧
    (calcOrderParamsBuy defaultConfig
        { buyEnv with
            traderBalance := getTraderUsdcBalance (some [("0xaaa", 500)]) "0xbbb" }
        buySig (1/2)).isSome = true := by
  have hbal : getTraderUsdcBalance (some [("0xaaa", 500)]) "0xbbb" = 1000 := by decide
  refine ⟨hbal, ?_⟩
  rw [hbal]
  norm_num [calcOrderParamsBuy, traderUsageRatioPct, bumpLargeOrderRatio,
    effectiveUsageRatioPct, applyBuyMinimums, belowMinOrder, maxAffordableBuy,
    defaultConfig, buyEnv, buySig, min_def, max_def]

/-- C4 amended: a trader balance that is present and non-positive
makes the BUY sizer skip the signal entirely, while a trader missing
from the balance snapshot is given the default balance 1000.0 and is
not skipped on that ground
(TradeExecutionService._get_trader_usdc_balance and the BUY branch of
TradeExecutionService._calculate_order_params). -/
theorem trader_balance_zero_or_missing (cfg : SizerConfig) (env : SizerEnv)
    (sig : TradeSignal) (p : ℚ) (cache : List (String × ℚ)) (trader : String)
    (hb : env.traderBalance ≤ 0)
    (hmiss : ∀ kv ∈ cache, lowerStr kv.1 ≠ lowerStr trader) :
    calcOrderParamsBuy cfg env sig p = none ∧
    getTraderUsdcBalance (some cache) trader = 1000 := by
  constructor
  · simp only [calcOrderParamsBuy, traderUsageRatioPct, bumpLargeOrderRatio,
      if_neg (not_lt.mpr hb)]
    norm_num
  · simp only [getTraderUsdcBalance]
    have hany : cache.any (fun kv => kv.1 = trader) = false := by
      rw [List.any_eq_false]
      intro kv hkv
      simp only [decide_eq_true_eq]
      intro heq
      exact hmiss kv hkv (by rw [heq])
    have hfind : cache.find? (fun kv => lowerStr kv.1 = lowerStr trader) = none := by
      rw [List.find?_eq_none]
      intro kv hkv
      simpa using hmiss kv hkv
    rcases eq_or_ne cache [] with hc | hc
    · subst hc
      simp
    · simp [hc, hany, hfind]

/-- C4 witness: the amended theorem at a zero trader balance and a
single-entry cache missing the trader. -/
theorem trader_balance_zero_or_missing_witness :
    calcOrderParamsBuy defaultConfig { buyEnv with traderBalance := 0 }
        buySig (1/2) = none ∧
    getTraderUsdcBalance (some [("0xaaa", 500)]) "0xbbb" = 1000 :=
  trader_balance_zero_or_missing defaultConfig
    { buyEnv with traderBalance := 0 } buySig (1/2) [("0xaaa", 500)] "0xbbb"
    (le_refl 0) (by decide)

/-- Helper: refill keeps the refill rate. -/
theorem refill_rate (s : RateLimiterState) (now : ℚ) :
    (refill s now).rate = s.rate := by
  simp only [refill]
  split_ifs <;> rfl

/-- Helper: refill keeps the capacity. -/
theorem refill_capacity (s : RateLimiterState) (now : ℚ) :
    (refill s now).capacity = s.capacity := by
  simp only [refill]
  split_ifs <;> rfl

/-- Helper: under a positive rate and a monotone clock, refill leaves
the last-refill timestamp equal to the current time. -/
theorem refill_lastRefill (s : RateLimiterState) (now : ℚ) (hr : 0 < s.rate)
    (h : s.lastRefill ≤ now) : (refill s now).lastRefill = now := by
  simp only [refill]
  split_ifs with hpos
  · rfl
  · push_neg at hpos
    have h2 : now - s.lastRefill ≤ 0 := by nlinarith
    have h3 : s.lastRefill = now := le_antisymm h (by linarith)
    exact h3

/-- Helper: refill preserves the bucket invariant. -/
theorem refill_inv (s : RateLimiterState) (now : ℚ) (h : BucketInv s) :
    BucketInv (refill s now) := by
  obtain ⟨h0, h1⟩ := h
  simp only [refill, BucketInv]
  split_ifs with hpos
  · refine ⟨?_, ?_⟩ <;> dsimp only
    · exact le_min (h0.trans h1) (by linarith)
    · exact min_le_left _ _
  · exact ⟨h0, h1⟩

/-- Helper: one well-formed acquire call preserves the bucket
invariant and the constant rate and capacity fields. -/
theorem acquire_step_inv (s : RateLimiterState) (c : AcquireCall)
    (hr : 0 < s.rate) (hinv : BucketInv s) (hc : validCall s c) :
    BucketInv (acquire s c.n c.now c.nowAfterWait) ∧
      (acquire s c.n c.now c.nowAfterWait).rate = s.rate ∧
      (acquire s c.n c.now c.nowAfterWait).capacity = s.capacity := by
  obtain ⟨hn0, hncap, hmono, hwait⟩ := hc
  obtain ⟨ht0, htcap⟩ := refill_inv s c.now hinv
  have hrr := refill_rate s c.now
  have hrc := refill_capacity s c.now
  have hlr := refill_lastRefill s c.now hr hmono
  simp only [acquire]
  split_ifs with hfast
  · refine ⟨⟨?_, ?_⟩, ?_, ?_⟩ <;> dsimp only
    · linarith
    · linarith
    · exact hrr
    · exact hrc
  · have h1 : (c.n - (refill s c.now).tokens) / s.rate ≤ c.nowAfterWait - c.now := by
      linarith
    have hge : c.n - (refill s c.now).tokens ≤ (c.nowAfterWait - c.now) * s.rate :=
      (div_le_iff hr).mp h1
    have hminge : c.n ≤ min (refill s c.now).capacity
        ((refill s c.now).tokens +
          (c.nowAfterWait - (refill s c.now).lastRefill) * (refill s c.now).rate) := by
      rw [hlr, hrr, hrc]
      exact le_min hncap (by linarith)
    have hminle : min (refill s c.now).capacity
        ((refill s c.now).tokens +
          (c.nowAfterWait - (refill s c.now).lastRefill) * (refill s c.now).rate)
        ≤ (refill s c.now).capacity := min_le_left _ _
    refine ⟨⟨?_, ?_⟩, ?_, ?_⟩ <;> dsimp only
    · linarith
    · linarith
    · exact hrr
    · exact hrc

/-- C7: along any well-formed sequence of acquire calls (each request
at most the capacity, a monotone clock, and a pacing sleep at least
the computed wait), the token count stays between 0 and the capacity
after each call; intermediate states are reached by shorter traces of
the same statement (RateLimiter.acquire). -/
theorem rate_limiter_tokens_bounded (s : RateLimiterState)
    (cs : List AcquireCall) (hr : 0 < s.rate) (hinv : BucketInv s)
    (hcs : validCalls s cs) : BucketInv (acquireSeq s cs) := by
  induction cs generalizing s with
  | nil => exact hinv
  | cons c cs ih =>
    have hcs2 : validCall s c ∧
        validCalls (acquire s c.n c.now c.nowAfterWait) cs := hcs
    obtain ⟨hinv2, hrate, _⟩ := acquire_step_inv s c hr hinv hcs2.1
    exact ih (acquire s c.n c.now c.nowAfterWait)
      (by rw [hrate]; exact hr) hinv2 hcs2.2

/-- C7 witness: the theorem at the default limiter state (rate 18,
capacity 180, full bucket) and a single acquire of one token. -/
theorem rate_limiter_tokens_bounded_witness :
    BucketInv (acquireSeq ⟨18, 180, 180, 0⟩ [⟨1, 0, 0⟩]) :=
  rate_limiter_tokens_bounded ⟨18, 180, 180, 0⟩ [⟨1, 0, 0⟩] (by norm_num)
    ⟨by norm_num, by norm_num⟩
    ⟨⟨by norm_num, by norm_num, by norm_num, by norm_num [refill]⟩, trivial⟩

set_option maxHeartbeats 1000000 in
/-- C1: every BUY order accepted by the sizer has at least 5 shares
and at least 1 USDC notional: shares are lifted to max(shares, 5), the
amount is recomputed, and a sub-1-USDC amount is refused with no
compensation.  The hypotheses record that the order price comes from
the pricing clamp (positive and at most 0.99) and that the configured
maximum order size is at least 5 USDC (default 10000)
(TradeExecutionService._apply_buy_minimums and the BUY branch of
TradeExecutionService._calculate_order_params). -/
theorem buy_minimum_invariant (cfg : SizerConfig) (env : SizerEnv)
    (sig : TradeSignal) (p : ℚ) (op : OrderParams) (hp : 0 < p)
    (hp99 : p ≤ 99/100) (hmax : 5 ≤ cfg.maxOrderSize)
    (h : calcOrderParamsBuy cfg env sig p = some op) :
    5 ≤ op.shares ∧ 1 ≤ op.size := by
  simp only [calcOrderParamsBuy] at h
  split_ifs at h with hr0
  split at h
  · exact Option.noConfusion h
  · rename_i adjusted hA
    obtain ⟨ha1, ha2⟩ := applyBuyMinimums_eq _ _ _ hp hA
    split_ifs at h with h1 h2 h3 h4 h5 <;>
      first
        | exact Option.noConfusion h
        | (rw [Option.some.injEq] at h
           subst h
           dsimp only
           constructor
           · first
               | (rw [le_div_iff₀ hp]
                  linarith)
               | (rw [ha2, mul_div_cancel_right₀ _ (ne_of_gt hp)]
                  exact le_max_right _ _)
           · linarith)

/-- C1 witness: the theorem at the default configuration, a 1000 USDC
trader balance, a 100 USDC trader notional, and order price 1/2, where
the sizer lifts the order to 10 shares for 5 USDC. -/
theorem buy_minimum_invariant_witness :
    (5 : ℚ) ≤ OrderParams.shares ⟨"tok1", "BUY", 1/2, 5, 10, OrderType.GTC⟩ ∧
      (1 : ℚ) ≤ OrderParams.size ⟨"tok1", "BUY", 1/2, 5, 10, OrderType.GTC⟩ :=
  buy_minimum_invariant defaultConfig buyEnv buySig (1/2)
    ⟨"tok1", "BUY", 1/2, 5, 10, OrderType.GTC⟩ (by norm_num) (by norm_num)
    (by norm_num [defaultConfig])
    (by norm_num [calcOrderParamsBuy, traderUsageRatioPct, bumpLargeOrderRatio,
      effectiveUsageRatioPct, applyBuyMinimums, belowMinOrder, maxAffordableBuy,
      defaultConfig, buyEnv, buySig, min_def, max_def])

end CopyTrading
